import Mathlib

/-
Verification of the MO-book notebook scripts.

The Python sources build optimization models with an external modeling
library (Pyomo) and hand them to external solver binaries.  The solver
itself is outside the scope of this development; every call into a solver
is modelled as an oracle function producing a numeric assignment together
with a status record.  All of the arithmetic the scripts perform
themselves (dictionary construction, the CCG driver loop, the rejection
sampler) is embedded as executable functions over the rationals.
-/

/-! ## Solver plumbing

A Pyomo solve returns a results object carrying a solver status and a
termination condition; the numeric assignment is written into the model
object.  We package both into one record per solve. -/

/-- Status/termination fields of the results object returned by a solve
(`result.solver.status`, `result.solver.termination_condition`). -/
structure SolverResult where
  status : String
  termination : String
deriving DecidableEq

/-- One uncertainty scenario, the dictionary
`{"z_A": ..., "z_B": ..., "z_D": ...}` of `ccg.py`. -/
structure Scenario where
  z_A : ℚ
  z_B : ℚ
  z_D : ℚ
deriving DecidableEq

/-! ## `ccg.py`: `model_params` (In[2]) -/

/-- `model_params(z_A=0, z_B=0, z_D=0)` of `ccg.py`: returns the tuple
`(c, q, R, S, t)` of scenario-evaluated coefficient dictionaries,
embedded as association lists in the insertion order of the source. -/
def model_params (z_A z_B z_D : ℚ) :
    List (String × ℚ) × List (String × ℚ) ×
    List (String × List (String × ℚ)) × List (String × List (String × ℚ)) ×
    List (String × ℚ) :=
  let c : List (String × ℚ) := [("x", -10)]
  let q : List (String × ℚ) := [("y1", 0), ("y2", 0), ("y3", 1)]
  let R : List (String × List (String × ℚ)) :=
    [("profit", [("x", 0)]),
     ("demand", [("x", 0)]),
     ("labor A", [("x", 0)]),
     ("labor B", [("x", 0)]),
     ("raw materials", [("x", -1)])]
  let S : List (String × List (String × ℚ)) :=
    [("profit", [("y1", -(140 - 50 * z_A - 80 * z_B)),
                 ("y2", -(120 - 50 * z_A - 40 * z_B)), ("y3", 1)]),
     ("demand", [("y1", -1), ("y2", 0), ("y3", 0)]),
     ("labor A", [("y1", 1), ("y2", 1 + z_A), ("y3", 0)]),
     ("labor B", [("y1", 2 + 2 * z_B), ("y2", 1 + z_B), ("y3", 0)]),
     ("raw materials", [("y1", 10), ("y2", 9), ("y3", 0)])]
  let t : List (String × ℚ) :=
    [("profit", 0), ("demand", -20 * (1 + z_D)),
     ("labor A", 80), ("labor B", 100), ("raw materials", 0)]
  (c, q, R, S, t)

/-- Python dictionary read `d[k]` on an association list (keys are always
present at the embedded call sites, so the default of `0` is never hit). -/
def dget (d : List (String × ℚ)) (k : String) : ℚ :=
  (d.lookup k).getD 0

/-- Nested dictionary read `d[k]` returning an inner dictionary. -/
def dgetRow (d : List (String × List (String × ℚ))) (k : String) :
    List (String × ℚ) :=
  (d.lookup k).getD []

/-- `c.keys()` for `c, q, *_ = model_params()`. -/
def cKeys : List String := ((model_params 0 0 0).1).map Prod.fst

/-- `q.keys()` for `c, q, *_ = model_params()`. -/
def qKeys : List String := ((model_params 0 0 0).2.1).map Prod.fst

/-! ## `ccg.py`: `z_sample` (In[8])

`z_sample` draws `(u1, u2, u3)` uniformly from `[-1, 1]^3`, scales the
components by `0.15`, `0.25`, `0.25`, and repeats until the signed sum
`z_A/0.15 + z_B/0.25 + z_D/0.25` is at most `2`.  We model the stream of
uniform draws as an explicit list; the `while True` loop returns the
first accepted sample. -/

/-- The sample dictionary built inside the `z_sample` loop body from one
triple of `np.random.uniform(-1, 1)` draws. -/
def z_sample_from (u : ℚ × ℚ × ℚ) : Scenario :=
  ⟨0.15 * u.1, 0.25 * u.2.1, 0.25 * u.2.2⟩

/-- The acceptance test of `z_sample`: break out of the loop when
`sample["z_A"]/0.15 + sample["z_B"]/0.25 + sample["z_D"]/0.25 <= 2`. -/
def z_sample_accept (s : Scenario) : Bool :=
  decide (s.z_A / 0.15 + s.z_B / 0.25 + s.z_D / 0.25 ≤ 2)

/-- `z_sample()` over an explicit stream of uniform draws: the first
sample passing the acceptance test (`none` if the stream runs out). -/
def z_sample (draws : List (ℚ × ℚ × ℚ)) : Option Scenario :=
  (draws.map z_sample_from).find? z_sample_accept

/-! ## `ccg.py`: `subproblem_params` (In[12]) -/

/-- `subproblem_params(dec)` of `ccg.py`: the `(Left, Right)` coefficient
dictionaries of the pessimization problem, built from the entries
`dec["y1"]`, `dec["y2"]`, `dec["y3"]` of one master-solution dictionary
(passed here as a lookup function). -/
def subproblem_params (dec : String → ℚ) :
    List (String × List (String × ℚ)) × List (String × ℚ) :=
  let Left : List (String × List (String × ℚ)) :=
    [("demand", [("z_A", 0), ("z_B", 0), ("z_D", 20)]),
     ("profit", [("z_A", 50 * dec "y1" + 50 * dec "y2"),
                 ("z_B", 80 * dec "y1" + 40 * dec "y2"), ("z_D", 0)]),
     ("labor A", [("z_A", dec "y1" + dec "y2"), ("z_B", 0), ("z_D", 0)]),
     ("labor B", [("z_A", 0), ("z_B", 2 * dec "y1" + dec "y2"), ("z_D", 0)])]
  let Right : List (String × ℚ) :=
    [("demand", dec "y1" - 20),
     ("profit", 140 * dec "y1" + 120 * dec "y2" - dec "y3"),
     ("labor A", 80 - dec "y1" - dec "y2"),
     ("labor B", 100 - 2 * dec "y1" - dec "y2")]
  (Left, Right)

/-! ## `ccg.py`: the pessimization model (In[15])

`pessimization_problem` builds a mixed-integer model; its constraint
system is embedded as a feasibility predicate over the decision
variables (`m.z`, `m.z_abs`, `m.theta`, and the per-scenario binaries
`m.scenario[s].u`), and the solve itself as an oracle. -/

/-- `m.Z_INDICES = ["z_A", "z_B", "z_D"]`. -/
def zIndices : List String := ["z_A", "z_B", "z_D"]

/-- `big_M = 1000` of `pessimization_problem`. -/
def big_M : ℚ := 1000

/-- `sum(L[k][i] * m.z[i] for i in m.Z_INDICES)`. -/
def rowDot (row : List (String × ℚ)) (z : String → ℚ) : ℚ :=
  (zIndices.map (fun i => dget row i * z i)).sum

/-- The constraint system of the model built by `pessimization_problem`:
box and absolute-value-proxy constraints on `m.z`, the budget constraint
on `m.z_abs`, the `NonNegativeReals` domain of `m.z_abs`, and for each
scenario block the binary domain of `u`, the `at_least_one_violated`
cardinality constraint, and the big-M `model_constraints`. -/
def pessimization_feasible (master_solution : List (List (String × ℚ)))
    (z_A_max z_B_max z_D_max Gamma : ℚ)
    (z z_abs : String → ℚ) (theta : ℚ) (u : Nat → String → ℚ) : Prop :=
  (∀ i ∈ zIndices, 0 ≤ z_abs i) ∧
  z "z_A" ≤ z_A_max ∧ -(z "z_A") ≤ z_A_max ∧ z "z_A" ≤ z_abs "z_A" ∧
  z "z_B" ≤ z_B_max ∧ -(z "z_B") ≤ z_B_max ∧ z "z_B" ≤ z_abs "z_B" ∧
  z "z_D" ≤ z_D_max ∧ -(z "z_D") ≤ z_D_max ∧ z "z_D" ≤ z_abs "z_D" ∧
  z_abs "z_A" / z_A_max + z_abs "z_B" / z_B_max + z_abs "z_D" / z_D_max ≤ Gamma ∧
  ∀ s, s < master_solution.length →
    (∀ k ∈ (subproblem_params (dget (master_solution.getD s []))).1.map Prod.fst,
        u s k = 0 ∨ u s k = 1) ∧
    ((((subproblem_params (dget (master_solution.getD s []))).1.map Prod.fst).filter
        (fun k => k ≠ "profit")).map (u s)).sum ≤
      ((((subproblem_params (dget (master_solution.getD s []))).1.map Prod.fst).length : ℚ) - 2) ∧
    ∀ k ∈ (subproblem_params (dget (master_solution.getD s []))).1.map Prod.fst,
      rowDot (dgetRow (subproblem_params (dget (master_solution.getD s []))).1 k) z - theta ≥
        dget (subproblem_params (dget (master_solution.getD s []))).2 k - u s k * big_M

/-! ## Solver oracles for the CCG pipeline -/

/-- Numeric assignment read back from a solved master model:
`m.x[k]()` and `m.scenario[s].y[k]()`. -/
structure MasterVals where
  xval : String → ℚ
  yval : Nat → String → ℚ

/-- Outcome of `solver.solve(m)` on the master model: the assignment
written into `m` plus the (discarded) results object. -/
structure SolvedMaster where
  vals : MasterVals
  res : SolverResult

/-- Numeric assignment read back from a solved pessimization model:
`m.theta()` and `m.z[k]()`. -/
structure PessVals where
  theta : ℚ
  zval : String → ℚ

/-- Outcome of `solver.solve(m)` on the pessimization model. -/
structure SolvedPess where
  vals : PessVals
  res : SolverResult

/-- `max_min_profit(model_params, Z)` of `ccg.py`: builds the master
model over the scenario list `Z`, calls the solver (the oracle), discards
the results object and returns the solved model, i.e. its assignment. -/
def max_min_profit (solver : List Scenario → SolvedMaster)
    (Z : List Scenario) : MasterVals :=
  (solver Z).vals

/-- `pessimization_problem(subproblem_params, master_solution, ...)` of
`ccg.py`: builds the pessimization model from the master-solution list,
calls the solver (the oracle), and returns
`(m.theta(), m.z["z_A"](), m.z["z_B"](), m.z["z_D"]())`. -/
def pessimization_problem (solver : List (List (String × ℚ)) → SolvedPess)
    (master_solution : List (List (String × ℚ))) : ℚ × ℚ × ℚ × ℚ :=
  let sv := solver master_solution
  (sv.vals.theta, sv.vals.zval "z_A", sv.vals.zval "z_B", sv.vals.zval "z_D")

/-! ## `ccg.py`: the CCG driver loop (In[13]) -/

/-- The dictionary `single_solution` built for scenario `s`: one entry
`m.x[k]()` per key of `c.keys()` followed by one entry
`m.scenario[s].y[k]()` per key of `q.keys()`. -/
def single_solution (vals : MasterVals) (s : Nat) : List (String × ℚ) :=
  cKeys.map (fun k => (k, vals.xval k)) ++ qKeys.map (fun k => (k, vals.yval s k))

/-- The list `master_solution`: one `single_solution` per `s` in
`range(len(Z))`. -/
def master_solution_list (vals : MasterVals) (n : Nat) :
    List (List (String × ℚ)) :=
  (List.range n).map (fun s => single_solution vals s)

/-- `stopping_precision = 0.1`. -/
def stopping_precision : ℚ := 0.1

/-- `max_iterations = 50`. -/
def max_iterations : Nat := 50

/-- The mutable state of the CCG `while` loop, extended with the value
`theta_opt` returned by the most recent pessimization step. -/
structure CCGState where
  Z : List Scenario
  ccg_converged : Bool
  ccg_iterations : Nat
  last_theta : Option ℚ
deriving DecidableEq

/-- The state just before the loop: `ccg_converged = False`,
`ccg_iterations = 0`, and `Z = [{"z_A": 0, "z_B": 0, "z_D": 0}]`. -/
def ccg_init : CCGState := ⟨[⟨0, 0, 0⟩], false, 0, none⟩

/-- One iteration of the CCG loop body: solve the master problem over the
current `Z`, export `master_solution`, solve the pessimization problem on
it, then either set `ccg_converged` (when `theta_opt < stopping_precision`)
or append the returned scenario to `Z`; finally `ccg_iterations += 1`. -/
def ccg_step (master : List Scenario → SolvedMaster)
    (pess : List (List (String × ℚ)) → SolvedPess) (st : CCGState) : CCGState :=
  let vals := max_min_profit master st.Z
  let msol := master_solution_list vals st.Z.length
  let r := pessimization_problem pess msol
  if r.1 < stopping_precision then
    ⟨st.Z, true, st.ccg_iterations + 1, some r.1⟩
  else
    ⟨st.Z ++ [⟨r.2.1, r.2.2.1, r.2.2.2⟩], st.ccg_converged,
     st.ccg_iterations + 1, some r.1⟩

/-- The CCG `while` loop, fuel-indexed: iterate `ccg_step` while
`(not ccg_converged) and (ccg_iterations < max_iterations)`.  Since every
step increments `ccg_iterations`, fuel `max_iterations` from the initial
state makes the fuel bound never bind before the loop guard does. -/
def ccg_run (master : List Scenario → SolvedMaster)
    (pess : List (List (String × ℚ)) → SolvedPess) :
    Nat → CCGState → CCGState
  | 0, st => st
  | fuel + 1, st =>
    if st.ccg_converged = false ∧ st.ccg_iterations < max_iterations then
      ccg_run master pess fuel (ccg_step master pess st)
    else st

/-- The state in which the CCG loop exits, starting from `ccg_init`. -/
def ccg_final (master : List Scenario → SolvedMaster)
    (pess : List (List (String × ℚ)) → SolvedPess) : CCGState :=
  ccg_run master pess max_iterations ccg_init

/-! ## Concrete solver oracles (used in witnesses and counterexamples) -/

/-- An ordinary status record. -/
def solver_ok : SolverResult := ⟨"ok", "optimal"⟩

/-- A different status record (same assignments, different status). -/
def solver_warn : SolverResult := ⟨"warning", "maxTimeLimit"⟩

/-- A master oracle assigning `0` to every variable. -/
def master_zero : List Scenario → SolvedMaster :=
  fun _ => ⟨⟨fun _ => 0, fun _ _ => 0⟩, solver_ok⟩

/-- The same assignments as `master_zero` with a different status. -/
def master_zero_warn : List Scenario → SolvedMaster :=
  fun _ => ⟨⟨fun _ => 0, fun _ _ => 0⟩, solver_warn⟩

/-- A pessimization oracle that always reports violation `theta = 1`. -/
def pess_always_violated : List (List (String × ℚ)) → SolvedPess :=
  fun _ => ⟨⟨1, fun _ => 0⟩, solver_ok⟩

/-- The same assignments as `pess_always_violated`, different status. -/
def pess_always_violated_warn : List (List (String × ℚ)) → SolvedPess :=
  fun _ => ⟨⟨1, fun _ => 0⟩, solver_warn⟩

/-- A pessimization oracle that never reports a violation. -/
def pess_no_violation : List (List (String × ℚ)) → SolvedPess :=
  fun _ => ⟨⟨0, fun _ => 0⟩, solver_ok⟩

/-- A master-solution lookup agreeing with `dec_example_b` on
`y1`, `y2`, `y3` but not on `x`. -/
def dec_example_a : String → ℚ :=
  fun k => if k == "x" then 5 else if k == "y1" then 1
    else if k == "y2" then 2 else if k == "y3" then 3 else 0

/-- A master-solution lookup agreeing with `dec_example_a` on
`y1`, `y2`, `y3` but not on `x`. -/
def dec_example_b : String → ℚ :=
  fun k => if k == "x" then 7 else if k == "y1" then 1
    else if k == "y2" then 2 else if k == "y3" then 3 else 0

/-! ## `markowitz_portfolio_with_chance_constraint.py` (In[22])

The script sets `alpha = 0.5`, `beta = 0.3`, `n = 3`, fixed `z_mean` and
`z_cov`, builds the model, solves it with CPLEX and displays the status,
the solution and the objective value. -/

/-- `alpha = 0.5`. -/
noncomputable def portfolio_alpha : ℝ := 0.5

/-- `z_mean = np.array([1.05, 1.15, 1.3])` (rational form, used where the
script only moves the numbers around). -/
def z_mean : Fin 3 → ℚ := ![1.05, 1.15, 1.3]

/-- `z_mean` as a real vector (used inside the chance constraint). -/
noncomputable def z_meanR : Fin 3 → ℝ := ![1.05, 1.15, 1.3]

/-- `z_cov = np.array([[1, 0.5, 2], [0.5, 2, 0], [2, 0, 5]])`. -/
noncomputable def z_cov : Fin 3 → Fin 3 → ℝ := ![![1, 0.5, 2], ![0.5, 2, 0], ![2, 0, 5]]

/-- `model.x @ (z_cov @ model.x)`: the quadratic form `x ᵀ Σ x` that the
script actually puts on the left of the chance constraint. -/
noncomputable def quadForm (x : Fin 3 → ℝ) : ℝ :=
  ∑ i, x i * (∑ j, z_cov i j * x j)

/-- The norm `‖Σ^(1/2) x‖₂` of the SOCP reformulation stated in the
notebook markdown; for the positive-semidefinite `z_cov` this equals
`Real.sqrt (x ᵀ Σ x)`. -/
noncomputable def sigmaHalfNorm (x : Fin 3 → ℝ) : ℝ :=
  Real.sqrt (quadForm x)

/-- Left-hand side of the `chance_constraint` the script builds:
`norm.ppf(1-beta) * (model.x @ (z_cov @ model.x))`.  The quantile value
`norm.ppf(1-beta)` comes from scipy and is kept as a parameter `ppf`. -/
noncomputable def chance_constraint_lhs (ppf : ℝ) (x : Fin 3 → ℝ) : ℝ :=
  ppf * quadForm x

/-- Left-hand side of the SOCP constraint stated in the markdown:
`norm.ppf(1-beta) * ‖Σ^(1/2) x‖₂`. -/
noncomputable def socp_constraint_lhs (ppf : ℝ) (x : Fin 3 → ℝ) : ℝ :=
  ppf * sigmaHalfNorm x

/-- Right-hand side shared by both constraints:
`z_mean @ model.x - alpha`. -/
noncomputable def chance_constraint_rhs (x : Fin 3 → ℝ) : ℝ :=
  (∑ i, z_meanR i * x i) - portfolio_alpha

/-- The constraint the script adds to the model. -/
noncomputable def chance_constraint (ppf : ℝ) (x : Fin 3 → ℝ) : Prop :=
  chance_constraint_lhs ppf x ≤ chance_constraint_rhs x

/-- The constraint of the stated SOCP reformulation. -/
noncomputable def socp_constraint (ppf : ℝ) (x : Fin 3 → ℝ) : Prop :=
  socp_constraint_lhs ppf x ≤ chance_constraint_rhs x

/-- Assignment read back from the solved portfolio model:
`model.x[i].value` for `i` in `range(3)`. -/
structure PortfolioVals where
  xvals : Fin 3 → ℚ

/-- Outcome of `cplex_solver.solve(model)`: assignment plus results
object. -/
structure SolvedPortfolio where
  vals : PortfolioVals
  res : SolverResult

/-- The solution values the script displays:
`model.x[0].value, model.x[1].value, model.x[2].value`. -/
def portfolio_solution (r : SolvedPortfolio) : Fin 3 → ℚ :=
  r.vals.xvals

/-- The objective value the script displays: `model.objective()`, i.e.
`z_mean @ model.x` at the solved assignment. -/
def portfolio_objective_value (r : SolvedPortfolio) : ℚ :=
  ∑ i, z_mean i * r.vals.xvals i

/-- The solver-status markdown line built from the results object:
`f"**Solver status:** *{result.solver.status}, {result.solver.termination_condition}*"`.
Only the two status fields flow into it. -/
def portfolio_status_line (r : SolvedPortfolio) : String × String :=
  (r.res.status, r.res.termination)

/-! ## The remaining `solver.solve` call sites

Every other solve call in the scripts follows the same shape: the solver
writes an assignment into the model and returns a results object; the
script either discards that object outright or reads only its two status
fields for a display line.  Each call site gets its oracle type and the
function of the solved model the script actually computes. -/

/-- Assignment of the Version 1 production model (`production-planning.py`):
the five scalar variables shown by the final `model.display()`. -/
structure ProductionV1Vals where
  x_M : ℚ
  x_A : ℚ
  x_B : ℚ
  y_U : ℚ
  y_V : ℚ

/-- Outcome of `solver.solve(model)` in Version 1; the script does not
even bind the results object. -/
structure SolvedProductionV1 where
  vals : ProductionV1Vals
  res : SolverResult

/-- What Version 1 reads back after the solve: the model contents alone
(the results object of `solver.solve(model)` is discarded unbound). -/
def production_v1_result (r : SolvedProductionV1) : ProductionV1Vals :=
  r.vals

/-- Assignment of the Version 2 production model: the indexed variables
`model.x[r]` and `model.y[p]`. -/
structure ProductionV2Vals where
  xval : String → ℚ
  yval : String → ℚ

/-- Outcome of `solver.solve(model)` in Version 2 (results object again
discarded unbound). -/
structure SolvedProductionV2 where
  vals : ProductionV2Vals
  res : SolverResult

/-- What Version 2 reads back after the solve: the model contents alone. -/
def production_v2_result (r : SolvedProductionV2) : ProductionV2Vals :=
  r.vals

/-- Assignment of a solved Kelly model (`kelly-criterion.py`): the
variables `q1`, `q2`, `w`. -/
structure KellyVals where
  q1 : ℚ
  q2 : ℚ
  w : ℚ

/-- Outcome of `pmo.SolverFactory('mosek_direct').solve(m)`. -/
structure SolvedKelly where
  vals : KellyVals
  res : SolverResult

/-- `kelly(p, b)`: builds the conic model, solves it (oracle), discards
the solve return value and returns `m.w()`. -/
def kelly (solver : ℚ → ℚ → SolvedKelly) (p b : ℚ) : ℚ :=
  (solver p b).vals.w

/-- `kelly_rc(p, b, lambd)`: same shape with the risk constraints. -/
def kelly_rc (solver : ℚ → ℚ → ℚ → SolvedKelly) (p b lambd : ℚ) : ℚ :=
  (solver p b lambd).vals.w

/-- Assignment of a solved robust-portfolio model
(`markowitz_portfolio_with_chance_constraint.py`): the objective variable
`model.w` and the indexed `model.x[j]`. -/
structure PortfolioGVals where
  w : ℚ
  xval : Nat → ℚ

/-- Outcome of `cbc_solver.solve(model)` in the portfolio functions. -/
structure SolvedPortfolioG where
  vals : PortfolioGVals
  res : SolverResult

/-- `portfolio(Gamma, printflag)`: solves the robust model (oracle over
`Gamma`), displays the status line only under `printflag`, and returns
`(model.profit(), [round(model.x[i].value, 3) for i in model.indices])`
with indices `1..100`; the Python builtin `round` is the parameter
`rnd`.  First component: returned pair; second: the displayed status
fields, if any. -/
def portfolio (solver : ℚ → SolvedPortfolioG) (rnd : ℚ → ℚ)
    (Gamma : ℚ) (printflag : Bool) :
    (ℚ × List ℚ) × Option (String × String) :=
  let r := solver Gamma
  ((r.vals.w, (List.range 100).map (fun j => rnd (r.vals.xval (j + 1)))),
   if printflag then some (r.res.status, r.res.termination) else none)

/-- The second `portfolio()` of the Markowitz script (indices `1..10`,
solved model passed as the oracle outcome).  Its body reads the name
`printflag`, which is not defined in that scope in the source; it is
modelled as a parameter. -/
def portfolio_plain (solver : SolvedPortfolioG) (rnd : ℚ → ℚ)
    (printflag : Bool) :
    (ℚ × List ℚ) × Option (String × String) :=
  ((solver.vals.w,
    (List.range 10).map (fun j => rnd (solver.vals.xval (j + 1)))),
   if printflag then some (solver.res.status, solver.res.termination)
   else none)

/-- `max_profit(model_params, Z, x)` of `ccg.py`: builds the per-scenario
model, solves it (oracle), discards the solve return value and returns
the solved model; its `x` argument is unused in the source body. -/
def max_profit (solver : List Scenario → SolvedMaster)
    (Z : List Scenario) (x : ℚ) : MasterVals :=
  (solver Z).vals

/-- `max_expected_profit(model_params, Z)` of `ccg.py`: same shape,
returning the solved model. -/
def max_expected_profit (solver : List Scenario → SolvedMaster)
    (Z : List Scenario) : MasterVals :=
  (solver Z).vals

/-! ## Model signatures for every model handed to a solver

For the shape claim we record, per model object passed to a
`solver.solve` call, the list of declared objectives with their senses
and the list of constraints by kind, in declaration order. -/

/-- Objective sense (`sense=pyo.maximize` or `sense=pyo.minimize`). -/
inductive Sense where
  | maximize
  | minimize
deriving DecidableEq

/-- The kind of a constraint added to a model: an equality (`==`), an
inequality (`<=` or `>=`), or a conic-cone membership
(`pmo.conic.primal_exponential.as_domain`). -/
inductive CKind where
  | eqC
  | ineqC
  | conicC
deriving DecidableEq

/-- Objectives (with sense) and constraints (by kind) of one model, in
declaration order. -/
structure ModelSig where
  objectives : List Sense
  constraints : List CKind
deriving DecidableEq

/-- `production-planning.py` Version 1: objective `profit` (maximize);
constraints `raw_materials`, `labor_A`, `labor_B` (all `<=`). -/
def production_v1_sig : ModelSig :=
  ⟨[Sense.maximize], [CKind.ineqC, CKind.ineqC, CKind.ineqC]⟩

/-- `production-planning.py` Version 2: objective `profit` (maximize);
one `<=` constraint per resource in `resource_data` (3 resources). -/
def production_v2_sig : ModelSig :=
  ⟨[Sense.maximize], List.replicate 3 CKind.ineqC⟩

/-- The portfolio model of the Markowitz script: objective (maximize);
`chance_constraint` (`<=`) and `total_assets` (`==`). -/
def markowitz_sig : ModelSig :=
  ⟨[Sense.maximize], [CKind.ineqC, CKind.eqC]⟩

/-- `portfolio(Gamma, printflag)` of the Markowitz script: objective
`profit` (maximize); `budget` (`==`), `cardinalityconstraint` (`<=`), and
for each of the 100 indices one `lower` and one `upper` constraint
(both `>=`). -/
def portfolio_robust_sig : ModelSig :=
  ⟨[Sense.maximize],
   [CKind.eqC, CKind.ineqC] ++ List.replicate (2 * 100) CKind.ineqC⟩

/-- The second `portfolio()` of the Markowitz script: objective `profit`
(maximize); only the `budget` constraint (`==`). -/
def portfolio_plain_sig : ModelSig :=
  ⟨[Sense.maximize], [CKind.eqC]⟩

/-- `kelly(p, b)` of `kelly-criterion.py`: objective `ElogR` (maximize);
two exponential-cone memberships `t1`, `t2`. -/
def kelly_sig : ModelSig :=
  ⟨[Sense.maximize], [CKind.conicC, CKind.conicC]⟩

/-- `kelly_rc(p, b, lambd)`: objective `ElogR` (maximize); cones `t1`,
`t2`, the linear risk bound `r0` (`<=`), and cones `r1`, `r2`. -/
def kelly_rc_sig : ModelSig :=
  ⟨[Sense.maximize],
   [CKind.conicC, CKind.conicC, CKind.ineqC, CKind.conicC, CKind.conicC]⟩

/-- `max_min_profit` of `ccg.py` over `n` scenarios: objective
`min_profit` (maximize); per scenario block `stage_net_profit` (`>=`)
plus one `<=` constraint per key of `S` (5 keys). -/
def max_min_profit_sig (n : Nat) : ModelSig :=
  ⟨[Sense.maximize],
   List.flatten (List.replicate n (CKind.ineqC :: List.replicate 5 CKind.ineqC))⟩

/-- `max_profit` of `ccg.py` over `n` scenarios: objective (maximize);
per scenario `stage_net_profit` (`>=`) plus 5 `model_constraints` (`<=`)
(the `profit` Expression is not a constraint). -/
def max_profit_sig (n : Nat) : ModelSig :=
  ⟨[Sense.maximize],
   List.flatten (List.replicate n (CKind.ineqC :: List.replicate 5 CKind.ineqC))⟩

/-- `max_expected_profit` of `ccg.py` over `n` scenarios: objective
(maximize); per scenario 5 `model_constraints` (`<=`). -/
def max_expected_profit_sig (n : Nat) : ModelSig :=
  ⟨[Sense.maximize], List.flatten (List.replicate n (List.replicate 5 CKind.ineqC))⟩

/-- `pessimization_problem` of `ccg.py` over `n` master solutions:
objective `max_violation` (maximize); the nine box and abs-proxy
constraints on `z`, the budget constraint, and per scenario block
`at_least_one_violated` (`<=`) plus 4 big-M `model_constraints` (`>=`). -/
def pessimization_sig (n : Nat) : ModelSig :=
  ⟨[Sense.maximize],
   List.replicate 9 CKind.ineqC ++ [CKind.ineqC] ++
     List.flatten (List.replicate n (CKind.ineqC :: List.replicate 4 CKind.ineqC))⟩

/-- All models the scripts hand to a solver, at given scenario counts
`n₁` (for `max_min_profit` and `max_profit`), `n₂`
(for `max_expected_profit`), `n₃` (for `pessimization_problem`). -/
def all_solver_models (n₁ n₂ n₃ : Nat) : List ModelSig :=
  [production_v1_sig, production_v2_sig, markowitz_sig,
   portfolio_robust_sig, portfolio_plain_sig, kelly_sig, kelly_rc_sig,
   max_min_profit_sig n₁, max_profit_sig n₁, max_expected_profit_sig n₂,
   pessimization_sig n₃]

/-! ## The exponential cone as inequalities

`kelly-criterion.py` states the cone as
`K_exp = {(r, x, y) : r ≥ x, exp(y/x), with r, x ≥ 0}`.  To show the cone
membership fits an inequality description, we give a small expression
grammar over the three cone slots and exhibit an inequality list whose
conjunction is the membership predicate. -/

/-- Expressions over the three slots of a cone membership. -/
inductive CExpr where
  | vr : Fin 3 → CExpr
  | cst : ℚ → CExpr
  | add : CExpr → CExpr → CExpr
  | mul : CExpr → CExpr → CExpr
  | dv : CExpr → CExpr → CExpr
  | expo : CExpr → CExpr

/-- Evaluation of a `CExpr` at a slot assignment. -/
noncomputable def CExpr.eval : CExpr → (Fin 3 → ℝ) → ℝ
  | CExpr.vr i, v => v i
  | CExpr.cst q, _ => (q : ℝ)
  | CExpr.add a b, v => a.eval v + b.eval v
  | CExpr.mul a b, v => a.eval v * b.eval v
  | CExpr.dv a b, v => a.eval v / b.eval v
  | CExpr.expo a, v => Real.exp (a.eval v)

/-- Membership in the exponential cone `K_exp` as defined in the
notebook: `r ≥ x * exp(y/x)` with `r, x ≥ 0`, for slots
`v = (r, x, y)`. -/
noncomputable def Kexp (v : Fin 3 → ℝ) : Prop :=
  0 ≤ v 0 ∧ 0 ≤ v 1 ∧ v 1 * Real.exp (v 2 / v 1) ≤ v 0

/-- A predicate on cone slots is inequality-describable when it is the
conjunction of finitely many `lhs ≤ rhs` constraints between expressions
of the grammar. -/
def IneqDescribable (P : (Fin 3 → ℝ) → Prop) : Prop :=
  ∃ L : List (CExpr × CExpr),
    ∀ v, P v ↔ ∀ p ∈ L, CExpr.eval p.1 v ≤ CExpr.eval p.2 v

/-! ## `production-planning.py` Version 1 (In[47]..In[53])

The tutorial script is a straight line of declarations; we record the
sequence of model-building events in source order, and the expressions
it declares. -/

/-- One model-building event of the Version 1 script. -/
inductive BuildStep where
  | declare_variable : String → Option ℚ → Option ℚ → BuildStep
  | declare_expression : String → BuildStep
  | declare_objective : String → Sense → BuildStep
  | declare_constraint : String → BuildStep
  | invoke_solver : BuildStep
  | read_back : BuildStep
deriving DecidableEq

/-- The Version 1 cells in source order: the five `pyo.Var` declarations
with their bounds, the `revenue` and `expense` expressions, the `profit`
objective with `sense=pyo.maximize`, the three constraints, the
`solver.solve(model)` call, and the final `model.display()`. -/
def production_v1_steps : List BuildStep :=
  [BuildStep.declare_variable "x_M" (some 0) none,
   BuildStep.declare_variable "x_A" (some 0) (some 80),
   BuildStep.declare_variable "x_B" (some 0) (some 100),
   BuildStep.declare_variable "y_U" (some 0) (some 40),
   BuildStep.declare_variable "y_V" (some 0) none,
   BuildStep.declare_expression "revenue",
   BuildStep.declare_expression "expense",
   BuildStep.declare_objective "profit" Sense.maximize,
   BuildStep.declare_constraint "raw_materials",
   BuildStep.declare_constraint "labor_A",
   BuildStep.declare_constraint "labor_B",
   BuildStep.invoke_solver,
   BuildStep.read_back]

/-- `model.revenue = 270 * model.y_U + 210 * model.y_V`. -/
def revenue (y_U y_V : ℚ) : ℚ := 270 * y_U + 210 * y_V

/-- `model.expense = 10 * model.x_M + 50 * model.x_A + 40 * model.x_B`. -/
def expense (x_M x_A x_B : ℚ) : ℚ := 10 * x_M + 50 * x_A + 40 * x_B

/-- The `profit` objective: `model.revenue - model.expense`. -/
def profit (x_M x_A x_B y_U y_V : ℚ) : ℚ :=
  revenue y_U y_V - expense x_M x_A x_B

/-- The phase of a build step in the declare-data → declare-variables →
declare-expressions → declare-objective → declare-constraints →
solve → read-back pattern. -/
def build_phase : BuildStep → Nat
  | BuildStep.declare_variable _ _ _ => 0
  | BuildStep.declare_expression _ => 1
  | BuildStep.declare_objective _ _ => 2
  | BuildStep.declare_constraint _ => 3
  | BuildStep.invoke_solver => 4
  | BuildStep.read_back => 5

/-- The variable name and bounds of a declaration step, if it is one. -/
def var_data : BuildStep → Option (String × Option ℚ × Option ℚ)
  | BuildStep.declare_variable n lb ub => some (n, lb, ub)
  | _ => none

/-- The name of an expression declaration, if it is one. -/
def expr_name : BuildStep → Option String
  | BuildStep.declare_expression n => some n
  | _ => none

/-- The name and sense of an objective declaration, if it is one. -/
def obj_data : BuildStep → Option (String × Sense)
  | BuildStep.declare_objective n s => some (n, s)
  | _ => none

/-- The name of a constraint declaration, if it is one. -/
def constraint_name : BuildStep → Option String
  | BuildStep.declare_constraint n => some n
  | _ => none

/-- A one-entry master-solution list (all variables zero) used to witness
feasibility of the pessimization model. -/
def pess_witness_msol : List (List (String × ℚ)) :=
  [[("x", 0), ("y1", 0), ("y2", 0), ("y3", 0)]]

/-- The all-zero variable assignment. -/
def pess_witness_zero : String → ℚ := fun _ => 0

/-- A binary assignment leaving only the `labor B` row active. -/
def pess_witness_u : Nat → String → ℚ :=
  fun _ k => if k == "labor B" then 0 else 1

/-! ## Helper lemmas about the CCG loop -/

theorem ccg_step_iterations_succ (master : List Scenario → SolvedMaster)
    (pess : List (List (String × ℚ)) → SolvedPess) (st : CCGState) :
    (ccg_step master pess st).ccg_iterations = st.ccg_iterations + 1 := by
  by_cases h : (pessimization_problem pess
      (master_solution_list (max_min_profit master st.Z) st.Z.length)).1 <
      stopping_precision <;>
    simp [ccg_step, h]

theorem ccg_step_length_le (master : List Scenario → SolvedMaster)
    (pess : List (List (String × ℚ)) → SolvedPess) (st : CCGState) :
    (ccg_step master pess st).Z.length ≤ st.Z.length + 1 := by
  by_cases h : (pessimization_problem pess
      (master_solution_list (max_min_profit master st.Z) st.Z.length)).1 <
      stopping_precision <;>
    simp [ccg_step, h]

theorem ccg_run_iterations_le (master : List Scenario → SolvedMaster)
    (pess : List (List (String × ℚ)) → SolvedPess) :
    ∀ fuel st, (ccg_run master pess fuel st).ccg_iterations ≤
      st.ccg_iterations + fuel := by
  intro fuel
  induction fuel with
  | zero => intro st; simp [ccg_run]
  | succ n ih =>
    intro st
    rw [ccg_run]
    split
    · have h1 := ih (ccg_step master pess st)
      have h2 := ccg_step_iterations_succ master pess st
      omega
    · omega

theorem ccg_run_length_le (master : List Scenario → SolvedMaster)
    (pess : List (List (String × ℚ)) → SolvedPess) :
    ∀ fuel st, (ccg_run master pess fuel st).Z.length ≤ st.Z.length + fuel := by
  intro fuel
  induction fuel with
  | zero => intro st; simp [ccg_run]
  | succ n ih =>
    intro st
    rw [ccg_run]
    split
    · have h1 := ih (ccg_step master pess st)
      have h2 := ccg_step_length_le master pess st
      omega
    · omega

theorem ccg_run_of_converged (master : List Scenario → SolvedMaster)
    (pess : List (List (String × ℚ)) → SolvedPess) (fuel : Nat) (st : CCGState)
    (h : st.ccg_converged = true) : ccg_run master pess fuel st = st := by
  cases fuel <;> simp [ccg_run, h]

/-! ## Claims C3, C4, C9, C10 -/

/-- Claim C3: the CCG while loop runs at most 50 iterations for every
pair of solver oracles: `ccg_iterations` starts at `0` and goes up by
exactly `1` each iteration, `max_iterations = 50`, and since `Z` starts
as the single null scenario and gains at most one scenario per
iteration, the final scenario list never exceeds 51 entries. -/
theorem ccg_loop_bounded (master : List Scenario → SolvedMaster)
    (pess : List (List (String × ℚ)) → SolvedPess) :
    max_iterations = 50 ∧
    ccg_init.ccg_iterations = 0 ∧
    ccg_init.Z = [⟨0, 0, 0⟩] ∧
    (∀ st, (ccg_step master pess st).ccg_iterations = st.ccg_iterations + 1) ∧
    (ccg_final master pess).ccg_iterations ≤ 50 ∧
    (ccg_final master pess).Z.length ≤ 51 := by
  refine ⟨rfl, rfl, rfl, ccg_step_iterations_succ master pess, ?_, ?_⟩
  · have h := ccg_run_iterations_le master pess max_iterations ccg_init
    simpa [ccg_final] using h
  · have h := ccg_run_length_le master pess max_iterations ccg_init
    simpa [ccg_final] using h

theorem z_sample_neg_eval :
    z_sample [(-1, -1, -1)] = some ⟨-0.15, -0.25, -0.25⟩ := by
  have hacc : z_sample_accept (z_sample_from (-1, -1, -1)) = true := by
    simp only [z_sample_accept, z_sample_from, decide_eq_true_eq]
    norm_num
  rw [z_sample, List.map_cons, List.map_nil, List.find?_cons_of_pos _ hacc]
  simp only [z_sample_from, Option.some.injEq, Scenario.mk.injEq]
  refine ⟨?_, ?_, ?_⟩ <;> norm_num

theorem abs_point15 : |(-0.15 : ℚ)| = 0.15 := by
  rw [abs_of_nonpos] <;> norm_num

theorem abs_point25 : |(-0.25 : ℚ)| = 0.25 := by
  rw [abs_of_nonpos] <;> norm_num

/-- Claim C4: a sample returned by `z_sample` from in-range uniform draws
satisfies the box bounds and the signed budget
`z_A/0.15 + z_B/0.25 + z_D/0.25 <= 2`; and because the acceptance test
uses the signed values, some in-range draw stream yields an accepted
sample (one with all three components negative) that violates the
absolute-value budget `|z_A|/0.15 + |z_B|/0.25 + |z_D|/0.25 <= 2`. -/
theorem z_sample_spec (draws : List (ℚ × ℚ × ℚ)) (s : Scenario)
    (hin : ∀ d ∈ draws, |d.1| ≤ 1 ∧ |d.2.1| ≤ 1 ∧ |d.2.2| ≤ 1)
    (hs : z_sample draws = some s) :
    |s.z_A| ≤ 0.15 ∧ |s.z_B| ≤ 0.25 ∧ |s.z_D| ≤ 0.25 ∧
    s.z_A / 0.15 + s.z_B / 0.25 + s.z_D / 0.25 ≤ 2 ∧
    ∃ d0 : List (ℚ × ℚ × ℚ),
      (∀ e ∈ d0, |e.1| ≤ 1 ∧ |e.2.1| ≤ 1 ∧ |e.2.2| ≤ 1) ∧
      ∃ t : Scenario, z_sample d0 = some t ∧
        t.z_A < 0 ∧ t.z_B < 0 ∧ t.z_D < 0 ∧
        2 < |t.z_A| / 0.15 + |t.z_B| / 0.25 + |t.z_D| / 0.25 := by
  have hacc := List.find?_some hs
  have hmem := List.mem_of_find?_eq_some hs
  rw [List.mem_map] at hmem
  obtain ⟨d, hd, hsd⟩ := hmem
  obtain ⟨h1, h2, h3⟩ := hin d hd
  subst hsd
  simp only [z_sample_accept, decide_eq_true_eq] at hacc
  obtain ⟨h1a, h1b⟩ := abs_le.mp h1
  obtain ⟨h2a, h2b⟩ := abs_le.mp h2
  obtain ⟨h3a, h3b⟩ := abs_le.mp h3
  refine ⟨?_, ?_, ?_, hacc, ?_⟩
  · exact abs_le.mpr ⟨by simp [z_sample_from]; linarith, by simp [z_sample_from]; linarith⟩
  · exact abs_le.mpr ⟨by simp [z_sample_from]; linarith, by simp [z_sample_from]; linarith⟩
  · exact abs_le.mpr ⟨by simp [z_sample_from]; linarith, by simp [z_sample_from]; linarith⟩
  · refine ⟨[(-1, -1, -1)], ?_, ⟨-0.15, -0.25, -0.25⟩, z_sample_neg_eval,
      by norm_num, by norm_num, by norm_num, ?_⟩
    · intro e he
      simp only [List.mem_singleton] at he
      subst he
      refine ⟨?_, ?_, ?_⟩ <;> simp
    · show (2 : ℚ) < |(-0.15 : ℚ)| / 0.15 + |(-0.25 : ℚ)| / 0.25 + |(-0.25 : ℚ)| / 0.25
      rw [abs_point15, abs_point25]
      norm_num

/-- Claim C4 witness: the draw `(-1, -1, -1)` is in range and accepted. -/
theorem z_sample_spec_witness :
    |(Scenario.mk (-0.15) (-0.25) (-0.25)).z_A| ≤ 0.15 ∧
    |(Scenario.mk (-0.15) (-0.25) (-0.25)).z_B| ≤ 0.25 ∧
    |(Scenario.mk (-0.15) (-0.25) (-0.25)).z_D| ≤ 0.25 ∧
    (Scenario.mk (-0.15) (-0.25) (-0.25)).z_A / 0.15 +
      (Scenario.mk (-0.15) (-0.25) (-0.25)).z_B / 0.25 +
      (Scenario.mk (-0.15) (-0.25) (-0.25)).z_D / 0.25 ≤ 2 ∧
    ∃ d0 : List (ℚ × ℚ × ℚ),
      (∀ e ∈ d0, |e.1| ≤ 1 ∧ |e.2.1| ≤ 1 ∧ |e.2.2| ≤ 1) ∧
      ∃ t : Scenario, z_sample d0 = some t ∧
        t.z_A < 0 ∧ t.z_B < 0 ∧ t.z_D < 0 ∧
        2 < |t.z_A| / 0.15 + |t.z_B| / 0.25 + |t.z_D| / 0.25 :=
  z_sample_spec [(-1, -1, -1)] (Scenario.mk (-0.15) (-0.25) (-0.25))
    (by
      intro e he
      simp only [List.mem_singleton] at he
      subst he
      refine ⟨?_, ?_, ?_⟩ <;> simp)
    z_sample_neg_eval

/-- Claim C9: the Version 1 production-planning script follows the stated
pattern in order: variable declarations with the claimed bounds, then the
`revenue` and `expense` expressions, then the `profit` objective with
sense maximize, then the three resource constraints, then the solver
invocation, and only then the read-back/display; and the objective is
`revenue - expense`. -/
theorem production_v1_pattern :
    List.Chain' (· ≤ ·) (production_v1_steps.map build_phase) ∧
    production_v1_steps.filterMap var_data =
      [("x_M", some 0, none), ("x_A", some 0, some 80),
       ("x_B", some 0, some 100), ("y_U", some 0, some 40),
       ("y_V", some 0, none)] ∧
    production_v1_steps.filterMap expr_name = ["revenue", "expense"] ∧
    production_v1_steps.filterMap obj_data = [("profit", Sense.maximize)] ∧
    production_v1_steps.filterMap constraint_name =
      ["raw_materials", "labor_A", "labor_B"] ∧
    production_v1_steps.getLast? = some BuildStep.read_back ∧
    (∀ x_M x_A x_B y_U y_V : ℚ,
      profit x_M x_A x_B y_U y_V = revenue y_U y_V - expense x_M x_A x_B) :=
  ⟨by simp [production_v1_steps, build_phase, List.chain'_cons],
   by decide, by decide, by decide, by decide, by decide,
   fun _ _ _ _ _ => rfl⟩

/-- Claim C10: `model_params` and `subproblem_params` are deterministic
functions of their arguments alone: equal scenario components give equal
`model_params` tuples, and master-solution dictionaries that agree on the
keys `y1`, `y2`, `y3` (the only entries read) give equal
`subproblem_params` tuples. -/
theorem params_state_free :
    (∀ a b c a2 b2 c2 : ℚ, a = a2 → b = b2 → c = c2 →
      model_params a b c = model_params a2 b2 c2) ∧
    (∀ d1 d2 : String → ℚ, d1 "y1" = d2 "y1" → d1 "y2" = d2 "y2" →
      d1 "y3" = d2 "y3" → subproblem_params d1 = subproblem_params d2) := by
  constructor
  · intro a b c a2 b2 c2 h1 h2 h3
    rw [h1, h2, h3]
  · intro d1 d2 h1 h2 h3
    simp only [subproblem_params, h1, h2, h3]

/-- Claim C10 witness: two lookups that differ on the key `x` but agree
on `y1`, `y2`, `y3` produce identical `subproblem_params` output. -/
theorem params_state_free_witness :
    dec_example_a "y1" = dec_example_b "y1" ∧
    dec_example_a "y2" = dec_example_b "y2" ∧
    dec_example_a "y3" = dec_example_b "y3" ∧
    subproblem_params dec_example_a = subproblem_params dec_example_b :=
  ⟨by decide, by decide, by decide,
   params_state_free.2 dec_example_a dec_example_b
     (by decide) (by decide) (by decide)⟩

/-! ## Claims C1 and C2 -/

theorem single_solution_keys (vals : MasterVals) (s : Nat) :
    (single_solution vals s).map Prod.fst = ["x", "y1", "y2", "y3"] := rfl

/-- Claim C1: each iteration of the CCG loop solves the master problem
over the current `Z`, exports a `master_solution` with exactly `len(Z)`
entries whose keys are `x`, `y1`, `y2`, `y3`, solves the pessimization
problem on that list, and compares the returned `theta_opt` with
`stopping_precision = 0.1`: below the tolerance it sets `ccg_converged`
(after which the loop stops); otherwise it appends exactly the one
returned scenario to `Z`. -/
theorem ccg_iteration_behavior (master : List Scenario → SolvedMaster)
    (pess : List (List (String × ℚ)) → SolvedPess) (st : CCGState)
    (hconv : st.ccg_converged = false)
    (hiter : st.ccg_iterations < max_iterations) :
    stopping_precision = 1 / 10 ∧
    (master_solution_list (max_min_profit master st.Z) st.Z.length).length =
      st.Z.length ∧
    (∀ sol ∈ master_solution_list (max_min_profit master st.Z) st.Z.length,
      sol.map Prod.fst = ["x", "y1", "y2", "y3"]) ∧
    ((pessimization_problem pess
        (master_solution_list (max_min_profit master st.Z) st.Z.length)).1 <
        stopping_precision →
      ccg_step master pess st =
        ⟨st.Z, true, st.ccg_iterations + 1,
         some (pessimization_problem pess
           (master_solution_list (max_min_profit master st.Z) st.Z.length)).1⟩ ∧
      ∀ fuel, ccg_run master pess fuel (ccg_step master pess st) =
        ccg_step master pess st) ∧
    (¬ (pessimization_problem pess
        (master_solution_list (max_min_profit master st.Z) st.Z.length)).1 <
        stopping_precision →
      ccg_step master pess st =
        ⟨st.Z ++ [⟨(pessimization_problem pess
            (master_solution_list (max_min_profit master st.Z) st.Z.length)).2.1,
          (pessimization_problem pess
            (master_solution_list (max_min_profit master st.Z) st.Z.length)).2.2.1,
          (pessimization_problem pess
            (master_solution_list (max_min_profit master st.Z) st.Z.length)).2.2.2⟩],
         false, st.ccg_iterations + 1,
         some (pessimization_problem pess
           (master_solution_list (max_min_profit master st.Z) st.Z.length)).1⟩) := by
  refine ⟨by norm_num [stopping_precision], by simp [master_solution_list], ?_, ?_, ?_⟩
  · intro sol hsol
    rw [master_solution_list, List.mem_map] at hsol
    obtain ⟨s, -, rfl⟩ := hsol
    exact single_solution_keys _ s
  · intro hθ
    refine ⟨by simp [ccg_step, hθ], ?_⟩
    intro fuel
    exact ccg_run_of_converged master pess fuel _ (by simp [ccg_step, hθ])
  · intro hθ
    simp [ccg_step, hθ, hconv]

/-- Claim C1 witness: at the initial loop state with concrete oracles the
exported `master_solution` has exactly `len(Z)` entries. -/
theorem ccg_iteration_behavior_witness :
    (master_solution_list (max_min_profit master_zero ccg_init.Z)
      ccg_init.Z.length).length = ccg_init.Z.length :=
  (ccg_iteration_behavior master_zero pess_always_violated ccg_init rfl
    (by decide)).2.1

theorem pess_always_violated_no_conv (msol : List (List (String × ℚ))) :
    ¬ ((pessimization_problem pess_always_violated msol).1 < stopping_precision) := by
  norm_num [pessimization_problem, pess_always_violated, stopping_precision]

theorem ccg_step_stuck (st : CCGState) (h : st.ccg_converged = false) :
    (ccg_step master_zero pess_always_violated st).ccg_converged = false ∧
    (ccg_step master_zero pess_always_violated st).last_theta = some 1 := by
  have hθ : ¬ ((1 : ℚ) < stopping_precision) := by norm_num [stopping_precision]
  constructor <;>
    simp [ccg_step, hθ, h, pessimization_problem, pess_always_violated]

theorem ccg_run_stuck (fuel : Nat) : ∀ st : CCGState,
    st.ccg_converged = false → st.last_theta = some 1 →
    (ccg_run master_zero pess_always_violated fuel st).ccg_converged = false ∧
    (ccg_run master_zero pess_always_violated fuel st).last_theta = some 1 := by
  induction fuel with
  | zero =>
    intro st h1 h2
    rw [ccg_run]
    exact ⟨h1, h2⟩
  | succ n ih =>
    intro st h1 h2
    rw [ccg_run]
    split
    · exact ih _ (ccg_step_stuck st h1).1 (ccg_step_stuck st h1).2
    · exact ⟨h1, h2⟩

/-- Claim C2 counterexample: with a pessimization oracle that always
reports violation `theta_opt = 1`, the loop exits (at the iteration cap)
while the most recent pessimization value is `1`, which is not below the
tolerance: the loop does terminate in a state where the last
pessimization step still reported a violation. -/
theorem ccg_exit_violation_counterexample :
    (ccg_final master_zero pess_always_violated).ccg_converged = false ∧
    (ccg_final master_zero pess_always_violated).last_theta = some 1 ∧
    ¬ ((1 : ℚ) < stopping_precision) := by
  have h0 : ccg_final master_zero pess_always_violated =
      ccg_run master_zero pess_always_violated 49
        (ccg_step master_zero pess_always_violated ccg_init) := by
    rw [ccg_final, show max_iterations = 49 + 1 from rfl, ccg_run,
      if_pos ⟨rfl, by decide⟩]
  have hstep := ccg_step_stuck ccg_init rfl
  have hrun := ccg_run_stuck 49 _ hstep.1 hstep.2
  rw [h0]
  exact ⟨hrun.1, hrun.2, by norm_num [stopping_precision]⟩

theorem ccg_run_converged_inv (master : List Scenario → SolvedMaster)
    (pess : List (List (String × ℚ)) → SolvedPess) (fuel : Nat) :
    ∀ st : CCGState,
    (st.ccg_converged = true →
      ∃ θ, st.last_theta = some θ ∧ θ < stopping_precision) →
    ((ccg_run master pess fuel st).ccg_converged = true →
      ∃ θ, (ccg_run master pess fuel st).last_theta = some θ ∧
        θ < stopping_precision) := by
  induction fuel with
  | zero =>
    intro st h
    rw [ccg_run]
    exact h
  | succ n ih =>
    intro st h
    rw [ccg_run]
    split
    · apply ih
      intro hc
      by_cases hθ : (pessimization_problem pess
          (master_solution_list (max_min_profit master st.Z) st.Z.length)).1 <
          stopping_precision
      · exact ⟨_, by simp [ccg_step, hθ], hθ⟩
      · exfalso
        rename_i hcond
        have hcf : (ccg_step master pess st).ccg_converged = false := by
          simp [ccg_step, hθ, hcond.1]
        rw [hcf] at hc
        cases hc
    · exact h

theorem ccg_run_exhaust (master : List Scenario → SolvedMaster)
    (pess : List (List (String × ℚ)) → SolvedPess) (fuel : Nat) :
    ∀ st : CCGState,
    max_iterations ≤ st.ccg_iterations + fuel →
    (ccg_run master pess fuel st).ccg_converged = false →
    max_iterations ≤ (ccg_run master pess fuel st).ccg_iterations := by
  induction fuel with
  | zero =>
    intro st h _
    rw [ccg_run]
    omega
  | succ n ih =>
    intro st h hc
    rw [ccg_run] at hc ⊢
    by_cases hcond : st.ccg_converged = false ∧ st.ccg_iterations < max_iterations
    · rw [if_pos hcond] at hc ⊢
      apply ih
      · have := ccg_step_iterations_succ master pess st
        omega
      · exact hc
    · rw [if_neg hcond] at hc ⊢
      have hnb := not_and.mp hcond hc
      omega

/-- Claim C2 (amended): whenever the CCG loop exits with `ccg_converged`
set, the most recent pessimization value was below the tolerance `0.1`;
but the loop can also exit at the hard cap of 50 iterations — in that
case (`ccg_converged` false on exit) the iteration counter is exactly 50
and the last pessimization step may still report a violation. -/
theorem ccg_exit_condition (master : List Scenario → SolvedMaster)
    (pess : List (List (String × ℚ)) → SolvedPess) :
    ((ccg_final master pess).ccg_converged = true →
      ∃ θ, (ccg_final master pess).last_theta = some θ ∧
        θ < stopping_precision) ∧
    ((ccg_final master pess).ccg_converged = false →
      (ccg_final master pess).ccg_iterations = 50) := by
  constructor
  · intro h
    refine ccg_run_converged_inv master pess max_iterations ccg_init ?_ h
    intro hc
    simp [ccg_init] at hc
  · intro h
    have hub := ccg_run_iterations_le master pess max_iterations ccg_init
    have hlb := ccg_run_exhaust master pess max_iterations ccg_init
      (by simp [ccg_init]) h
    rw [ccg_final] at h ⊢
    have hmax : max_iterations = 50 := rfl
    have hinit : ccg_init.ccg_iterations = 0 := rfl
    omega

/-- Claim C2 witness: with a pessimization oracle reporting no violation
the loop exits converged, and the amended claim yields a below-tolerance
last theta. -/
theorem ccg_exit_condition_witness :
    (ccg_final master_zero pess_no_violation).ccg_converged = true ∧
    ∃ θ, (ccg_final master_zero pess_no_violation).last_theta = some θ ∧
      θ < stopping_precision := by
  have hθ : (pessimization_problem pess_no_violation
      (master_solution_list (max_min_profit master_zero ccg_init.Z)
        ccg_init.Z.length)).1 < stopping_precision := by
    norm_num [pessimization_problem, pess_no_violation, stopping_precision]
  have hstep : (ccg_step master_zero pess_no_violation ccg_init).ccg_converged =
      true := by
    simp [ccg_step, hθ]
  have hfin : ccg_final master_zero pess_no_violation =
      ccg_step master_zero pess_no_violation ccg_init := by
    rw [ccg_final, show max_iterations = 49 + 1 from rfl, ccg_run,
      if_pos ⟨rfl, by decide⟩]
    exact ccg_run_of_converged _ _ _ _ hstep
  have hconv : (ccg_final master_zero pess_no_violation).ccg_converged = true := by
    rw [hfin]
    exact hstep
  exact ⟨hconv, (ccg_exit_condition master_zero pess_no_violation).1 hconv⟩

/-! ## Claim C5 -/

/-- Claim C5: every feasible assignment of the pessimization model
satisfies the box bounds `|z| <= z_max` for the three components; the
`at_least_one_violated` constraint bounds the sum of the three non-profit
binaries by `len(L.keys()) - 2 = 2`, so in every scenario block at least
one of the binaries for `demand`, `labor A`, `labor B` is `0`; and every
row whose binary is `0` exceeds its right-hand side `R[k]` by at least
`theta`. -/
theorem pessimization_feasible_spec (msol : List (List (String × ℚ)))
    (z_A_max z_B_max z_D_max Gamma : ℚ) (z z_abs : String → ℚ) (theta : ℚ)
    (u : Nat → String → ℚ)
    (h : pessimization_feasible msol z_A_max z_B_max z_D_max Gamma
      z z_abs theta u) :
    |z "z_A"| ≤ z_A_max ∧ |z "z_B"| ≤ z_B_max ∧ |z "z_D"| ≤ z_D_max ∧
    (∀ dec : String → ℚ,
      ((subproblem_params dec).1.map Prod.fst).length - 2 = 2) ∧
    ∀ s, s < msol.length →
      (∃ k ∈ ["demand", "labor A", "labor B"], u s k = 0) ∧
      ∀ k ∈ (subproblem_params (dget (msol.getD s []))).1.map Prod.fst,
        u s k = 0 →
          rowDot (dgetRow (subproblem_params (dget (msol.getD s []))).1 k) z ≥
            dget (subproblem_params (dget (msol.getD s []))).2 k + theta := by
  obtain ⟨habs, hA1, hA2, hA3, hB1, hB2, hB3, hD1, hD2, hD3, hbud, hs⟩ := h
  refine ⟨abs_le.mpr ⟨by linarith, hA1⟩, abs_le.mpr ⟨by linarith, hB1⟩,
    abs_le.mpr ⟨by linarith, hD1⟩, fun _ => rfl, ?_⟩
  intro s hslt
  obtain ⟨hu, hsum, hrow⟩ := hs s hslt
  have hkeys : (subproblem_params (dget (msol.getD s []))).1.map Prod.fst =
      ["demand", "profit", "labor A", "labor B"] := rfl
  have hd := hu "demand" (by rw [hkeys]; simp)
  have ha := hu "labor A" (by rw [hkeys]; simp)
  have hb := hu "labor B" (by rw [hkeys]; simp)
  have hsum2 : u s "demand" + u s "labor A" + u s "labor B" ≤ 2 := by
    rw [hkeys] at hsum
    simp only [List.filter, List.map, List.sum_cons, List.sum_nil,
      List.length_cons, List.length_nil] at hsum
    norm_num at hsum
    linarith
  constructor
  · rcases hd with hd | hd
    · exact ⟨"demand", by simp, hd⟩
    · rcases ha with ha | ha
      · exact ⟨"labor A", by simp, ha⟩
      · rcases hb with hb | hb
        · exact ⟨"labor B", by simp, hb⟩
        · exfalso
          rw [hd, ha, hb] at hsum2
          norm_num at hsum2
  · intro k hk hk0
    have hr := hrow k hk
    rw [hk0, zero_mul, sub_zero] at hr
    linarith

/-- Claim C5 witness: at a concrete feasible assignment of the model
built from one all-zero master solution, the derived box bound holds. -/
theorem pessimization_feasible_spec_witness :
    |pess_witness_zero "z_A"| ≤ 0.15 :=
  (pessimization_feasible_spec pess_witness_msol 0.15 0.25 0.25 2
    pess_witness_zero pess_witness_zero (-100) pess_witness_u
    (by
      refine ⟨?_, ?_, ?_, ?_, ?_, ?_, ?_, ?_, ?_, ?_, ?_, ?_⟩
      · intro i _
        norm_num [pess_witness_zero]
      · norm_num [pess_witness_zero]
      · norm_num [pess_witness_zero]
      · norm_num [pess_witness_zero]
      · norm_num [pess_witness_zero]
      · norm_num [pess_witness_zero]
      · norm_num [pess_witness_zero]
      · norm_num [pess_witness_zero]
      · norm_num [pess_witness_zero]
      · norm_num [pess_witness_zero]
      · norm_num [pess_witness_zero]
      · intro s hs
        simp only [pess_witness_msol, List.length_cons, List.length_nil] at hs
        have hs0 : s = 0 := by omega
        subst hs0
        refine ⟨?_, ?_, ?_⟩
        · intro k _
          simp only [pess_witness_u]
          split
          · exact Or.inl rfl
          · exact Or.inr rfl
        · simp [pess_witness_msol, pess_witness_u, subproblem_params,
            dget, List.lookup, List.filter] <;> norm_num
        · intro k hk
          have hk2 : k ∈ ["demand", "profit", "labor A", "labor B"] := hk
          fin_cases hk2 <;>
            simp [pess_witness_msol, pess_witness_zero, pess_witness_u,
              subproblem_params, dget, dgetRow, rowDot, zIndices, big_M,
              List.lookup] <;> norm_num)).1

/-! ## Claim C6 -/

theorem ccg_step_congr (o1 o2 : List Scenario → SolvedMaster)
    (p1 p2 : List (List (String × ℚ)) → SolvedPess)
    (hm : ∀ Z, (o1 Z).vals = (o2 Z).vals)
    (hp : ∀ msol, (p1 msol).vals = (p2 msol).vals) (st : CCGState) :
    ccg_step o1 p1 st = ccg_step o2 p2 st := by
  simp only [ccg_step, max_min_profit, pessimization_problem, hm, hp]

theorem ccg_run_congr (o1 o2 : List Scenario → SolvedMaster)
    (p1 p2 : List (List (String × ℚ)) → SolvedPess)
    (hm : ∀ Z, (o1 Z).vals = (o2 Z).vals)
    (hp : ∀ msol, (p1 msol).vals = (p2 msol).vals) :
    ∀ fuel st, ccg_run o1 p1 fuel st = ccg_run o2 p2 fuel st := by
  intro fuel
  induction fuel with
  | zero =>
    intro st
    rw [ccg_run, ccg_run]
  | succ n ih =>
    intro st
    rw [ccg_run, ccg_run]
    split
    · rw [ccg_step_congr o1 o2 p1 p2 hm hp st]
      exact ih _
    · rfl

/-- Claim C6: no control flow anywhere depends on the solver termination
status.  For every `solver.solve` call site in the scripts —
`max_min_profit`, `pessimization_problem`, the CCG driver loop, the
Markowitz chance-constraint cell, Version 1 and Version 2 of the
production-planning script, `kelly`, `kelly_rc`, `portfolio(Gamma,
printflag)`, the plain `portfolio()`, `max_profit` and
`max_expected_profit` — the computed/returned/displayed values depend
only on the numeric assignment, never on the status fields, and the
status fields flow only into the status display lines. -/
theorem solver_status_ignored :
    (∀ (o1 o2 : List Scenario → SolvedMaster) (Z : List Scenario),
      (o1 Z).vals = (o2 Z).vals → max_min_profit o1 Z = max_min_profit o2 Z) ∧
    (∀ (p1 p2 : List (List (String × ℚ)) → SolvedPess)
        (msol : List (List (String × ℚ))),
      (p1 msol).vals = (p2 msol).vals →
        pessimization_problem p1 msol = pessimization_problem p2 msol) ∧
    (∀ (o1 o2 : List Scenario → SolvedMaster)
        (p1 p2 : List (List (String × ℚ)) → SolvedPess),
      (∀ Z, (o1 Z).vals = (o2 Z).vals) →
      (∀ msol, (p1 msol).vals = (p2 msol).vals) →
        ccg_final o1 p1 = ccg_final o2 p2) ∧
    (∀ r1 r2 : SolvedPortfolio, r1.vals = r2.vals →
      portfolio_solution r1 = portfolio_solution r2 ∧
      portfolio_objective_value r1 = portfolio_objective_value r2) ∧
    (∀ r : SolvedPortfolio,
      portfolio_status_line r = (r.res.status, r.res.termination)) ∧
    (∀ r1 r2 : SolvedProductionV1, r1.vals = r2.vals →
      production_v1_result r1 = production_v1_result r2) ∧
    (∀ r1 r2 : SolvedProductionV2, r1.vals = r2.vals →
      production_v2_result r1 = production_v2_result r2) ∧
    (∀ (k1 k2 : ℚ → ℚ → SolvedKelly) (p b : ℚ),
      (k1 p b).vals = (k2 p b).vals → kelly k1 p b = kelly k2 p b) ∧
    (∀ (k1 k2 : ℚ → ℚ → ℚ → SolvedKelly) (p b lambd : ℚ),
      (k1 p b lambd).vals = (k2 p b lambd).vals →
        kelly_rc k1 p b lambd = kelly_rc k2 p b lambd) ∧
    (∀ (s1 s2 : ℚ → SolvedPortfolioG) (rnd : ℚ → ℚ) (Gamma : ℚ)
        (printflag : Bool),
      (s1 Gamma).vals = (s2 Gamma).vals →
        (portfolio s1 rnd Gamma printflag).1 =
          (portfolio s2 rnd Gamma printflag).1) ∧
    (∀ (s : ℚ → SolvedPortfolioG) (rnd : ℚ → ℚ) (Gamma : ℚ)
        (printflag : Bool),
      (portfolio s rnd Gamma printflag).2 =
        if printflag then some ((s Gamma).res.status, (s Gamma).res.termination)
        else none) ∧
    (∀ (r1 r2 : SolvedPortfolioG) (rnd : ℚ → ℚ) (printflag : Bool),
      r1.vals = r2.vals →
        (portfolio_plain r1 rnd printflag).1 =
          (portfolio_plain r2 rnd printflag).1) ∧
    (∀ (r : SolvedPortfolioG) (rnd : ℚ → ℚ) (printflag : Bool),
      (portfolio_plain r rnd printflag).2 =
        if printflag then some (r.res.status, r.res.termination) else none) ∧
    (∀ (o1 o2 : List Scenario → SolvedMaster) (Z : List Scenario) (x : ℚ),
      (o1 Z).vals = (o2 Z).vals → max_profit o1 Z x = max_profit o2 Z x) ∧
    (∀ (o1 o2 : List Scenario → SolvedMaster) (Z : List Scenario),
      (o1 Z).vals = (o2 Z).vals →
        max_expected_profit o1 Z = max_expected_profit o2 Z) := by
  refine ⟨?_, ?_, ?_, ?_, fun _ => rfl, ?_, ?_, ?_, ?_, ?_,
    fun _ _ _ _ => rfl, ?_, fun _ _ _ => rfl, ?_, ?_⟩
  · intro o1 o2 Z h
    simp only [max_min_profit, h]
  · intro p1 p2 msol h
    simp only [pessimization_problem, h]
  · intro o1 o2 p1 p2 hm hp
    rw [ccg_final, ccg_final]
    exact ccg_run_congr o1 o2 p1 p2 hm hp max_iterations ccg_init
  · intro r1 r2 h
    constructor
    · simp only [portfolio_solution, h]
    · simp only [portfolio_objective_value, h]
  · intro r1 r2 h
    simp only [production_v1_result, h]
  · intro r1 r2 h
    simp only [production_v2_result, h]
  · intro k1 k2 p b h
    simp only [kelly, h]
  · intro k1 k2 p b lambd h
    simp only [kelly_rc, h]
  · intro s1 s2 rnd Gamma printflag h
    simp only [portfolio, h]
  · intro r1 r2 rnd printflag h
    simp only [portfolio_plain, h]
  · intro o1 o2 Z x h
    simp only [max_profit, h]
  · intro o1 o2 Z h
    simp only [max_expected_profit, h]

/-- Claim C6 witness: equal assignments with different status records
give the same master-problem result and the same final CCG state. -/
theorem solver_status_ignored_witness :
    max_min_profit master_zero [] = max_min_profit master_zero_warn [] ∧
    ccg_final master_zero pess_always_violated =
      ccg_final master_zero_warn pess_always_violated_warn :=
  ⟨solver_status_ignored.1 master_zero master_zero_warn [] rfl,
   solver_status_ignored.2.2.1 master_zero master_zero_warn
     pess_always_violated pess_always_violated_warn
     (fun _ => rfl) (fun _ => rfl)⟩

/-! ## Claim C7 -/

/-- Claim C7: the constraint the Markowitz script builds bounds
`norm.ppf(1-beta)` times the quadratic form `x ᵀ Σ x` itself, not the
norm `‖Σ^(1/2) x‖₂` of the stated SOCP reformulation: for every `x`
with `‖Σ^(1/2) x‖₂` different from `0` and `1` (and a nonzero quantile
factor, as holds for `norm.ppf(0.7)`), the built left-hand side differs
from the SOCP left-hand side. -/
theorem chance_constraint_quadratic_not_norm (ppf : ℝ) (x : Fin 3 → ℝ)
    (hppf : ppf ≠ 0) (h0 : sigmaHalfNorm x ≠ 0) (h1 : sigmaHalfNorm x ≠ 1) :
    chance_constraint_lhs ppf x ≠ socp_constraint_lhs ppf x := by
  have hq0 : 0 < quadForm x := by
    by_contra hle
    push_neg at hle
    exact h0 (by rw [sigmaHalfNorm]; exact Real.sqrt_eq_zero'.mpr hle)
  intro heq
  rw [chance_constraint_lhs, socp_constraint_lhs, sigmaHalfNorm] at heq
  have hqs : quadForm x = Real.sqrt (quadForm x) := mul_left_cancel₀ hppf heq
  have hmul : quadForm x * quadForm x = quadForm x := by
    calc quadForm x * quadForm x
        = Real.sqrt (quadForm x) * Real.sqrt (quadForm x) := by rw [← hqs]
      _ = quadForm x := Real.mul_self_sqrt hq0.le
  have hq1 : quadForm x = 1 := by
    have h2 : quadForm x * quadForm x = quadForm x * 1 := by
      rw [mul_one]
      exact hmul
    exact mul_left_cancel₀ (ne_of_gt hq0) h2
  apply h1
  rw [sigmaHalfNorm, ← hqs, hq1]

theorem quadForm_two : quadForm ![2, 0, 0] = 4 := by
  simp [quadForm, z_cov, Fin.sum_univ_three]
  norm_num

theorem sigmaHalfNorm_two : sigmaHalfNorm ![2, 0, 0] = 2 := by
  rw [sigmaHalfNorm, quadForm_two, show (4 : ℝ) = 2 ^ 2 by norm_num]
  exact Real.sqrt_sq (by norm_num)

/-- Claim C7 witness: at `ppf = 1` and `x = (2, 0, 0)` the norm is `2`
(neither `0` nor `1`) and the two left-hand sides differ. -/
theorem chance_constraint_quadratic_not_norm_witness :
    chance_constraint_lhs 1 ![2, 0, 0] ≠ socp_constraint_lhs 1 ![2, 0, 0] :=
  chance_constraint_quadratic_not_norm 1 ![2, 0, 0] one_ne_zero
    (by rw [sigmaHalfNorm_two]; norm_num)
    (by rw [sigmaHalfNorm_two]; norm_num)

/-! ## Claim C8 -/

theorem mem_flatten_replicate {α : Type} {c : α} {n : Nat} {l : List α}
    (h : c ∈ (List.replicate n l).flatten) : c ∈ l := by
  rw [List.mem_flatten] at h
  obtain ⟨l2, hl2, hc⟩ := h
  rwa [List.eq_of_mem_replicate hl2] at hc

theorem mem_scen_block {c : CKind} {n k : Nat}
    (h : c ∈ (List.replicate n
      (CKind.ineqC :: List.replicate k CKind.ineqC)).flatten) :
    c = CKind.ineqC := by
  have h2 := mem_flatten_replicate h
  rcases List.mem_cons.mp h2 with rfl | h3
  · rfl
  · exact List.eq_of_mem_replicate h3

theorem mem_scen_block5 {c : CKind} {n : Nat}
    (h : c ∈ (List.replicate n (List.replicate 5 CKind.ineqC)).flatten) :
    c = CKind.ineqC :=
  List.eq_of_mem_replicate (mem_flatten_replicate h)

theorem Kexp_ineq_describable : IneqDescribable Kexp := by
  refine ⟨[(CExpr.cst 0, CExpr.vr 0), (CExpr.cst 0, CExpr.vr 1),
    (CExpr.mul (CExpr.vr 1) (CExpr.expo (CExpr.dv (CExpr.vr 2) (CExpr.vr 1))),
      CExpr.vr 0)], ?_⟩
  intro v
  simp [Kexp, CExpr.eval]

/-- Claim C8: every model handed to a solver declares exactly one
objective, always with sense maximize; all constraints outside the Kelly
models are equalities or inequalities; the Kelly models consist of
inequalities and exponential-cone memberships, and the cone membership
itself is a finite conjunction of inequality constraints between
expressions. -/
theorem solver_model_shapes (n₁ n₂ n₃ : Nat) :
    (∀ m ∈ all_solver_models n₁ n₂ n₃, m.objectives = [Sense.maximize]) ∧
    (∀ m ∈ [production_v1_sig, production_v2_sig, markowitz_sig,
        portfolio_robust_sig, portfolio_plain_sig, max_min_profit_sig n₁,
        max_profit_sig n₁, max_expected_profit_sig n₂, pessimization_sig n₃],
      ∀ c ∈ m.constraints, c = CKind.eqC ∨ c = CKind.ineqC) ∧
    (∀ m ∈ [kelly_sig, kelly_rc_sig],
      ∀ c ∈ m.constraints, c = CKind.ineqC ∨ c = CKind.conicC) ∧
    IneqDescribable Kexp := by
  refine ⟨?_, ?_, ?_, Kexp_ineq_describable⟩
  · intro m hm
    simp only [all_solver_models, List.mem_cons, List.not_mem_nil,
      or_false] at hm
    rcases hm with rfl | rfl | rfl | rfl | rfl | rfl | rfl | rfl | rfl |
      rfl | rfl <;> rfl
  · intro m hm
    simp only [List.mem_cons, List.not_mem_nil, or_false] at hm
    rcases hm with rfl | rfl | rfl | rfl | rfl | rfl | rfl | rfl | rfl
    · intro c hc
      simp only [production_v1_sig] at hc
      simp at hc
      exact Or.inr hc
    · intro c hc
      simp only [production_v2_sig] at hc
      exact Or.inr (List.eq_of_mem_replicate hc)
    · intro c hc
      simp only [markowitz_sig] at hc
      simp at hc
      rcases hc with rfl | rfl
      · exact Or.inr rfl
      · exact Or.inl rfl
    · intro c hc
      simp only [portfolio_robust_sig] at hc
      rcases List.mem_append.mp hc with h | h
      · simp at h
        rcases h with rfl | rfl
        · exact Or.inl rfl
        · exact Or.inr rfl
      · exact Or.inr (List.eq_of_mem_replicate h)
    · intro c hc
      simp only [portfolio_plain_sig] at hc
      simp at hc
      exact Or.inl hc
    · intro c hc
      simp only [max_min_profit_sig] at hc
      exact Or.inr (mem_scen_block hc)
    · intro c hc
      simp only [max_profit_sig] at hc
      exact Or.inr (mem_scen_block hc)
    · intro c hc
      simp only [max_expected_profit_sig] at hc
      exact Or.inr (mem_scen_block5 hc)
    · intro c hc
      simp only [pessimization_sig] at hc
      rcases List.mem_append.mp hc with h | h
      · rcases List.mem_append.mp h with h2 | h2
        · exact Or.inr (List.eq_of_mem_replicate h2)
        · simp at h2
          exact Or.inr h2
      · exact Or.inr (mem_scen_block h)
  · intro m hm
    simp only [List.mem_cons, List.not_mem_nil, or_false] at hm
    rcases hm with rfl | rfl
    · intro c hc
      simp only [kelly_sig] at hc
      simp at hc
      exact Or.inr hc
    · intro c hc
      simp only [kelly_rc_sig] at hc
      simp at hc
      tauto

/-- Claim C8 witness: the Version 1 production model has exactly the one
maximize objective and its first constraint is an inequality. -/
theorem solver_model_shapes_witness :
    production_v1_sig.objectives = [Sense.maximize] ∧
    (CKind.ineqC = CKind.eqC ∨ CKind.ineqC = CKind.ineqC) :=
  ⟨(solver_model_shapes 1 1 1).1 production_v1_sig (by simp [all_solver_models]),
   (solver_model_shapes 1 1 1).2.1 production_v1_sig (by simp)
     CKind.ineqC (by simp [production_v1_sig])⟩
